import Mathlib

/-!
Verification of the Document-Q-A-React frontend state logic.

The definitions below are a shallow embedding of the React components
(`AdminDashboard.jsx`, `ChatInterface.jsx`, `App.jsx`) and of the small
JavaScript string/array primitives they rely on.  Network calls are
modelled by passing the backend response (or its failure) as an explicit
argument; React `setState` calls become fields of an explicit result
record.  Filenames are modelled as `List Char` so that the JavaScript
`split('.')` semantics can be reasoned about; other strings stay `String`.
-/

set_option maxHeartbeats 1000000

namespace DocQA

/-- JS `Array.prototype.map((x, idx) => ...)`, with an index accumulator. -/
def jsMapIdxGo (f : Nat → α → β) : Nat → List α → List β
  | _, [] => []
  | i, a :: as => f i a :: jsMapIdxGo f (i + 1) as

/-- JS `Array.prototype.map((x, idx) => ...)`. -/
def jsMapIdx (f : Nat → α → β) (l : List α) : List β :=
  jsMapIdxGo f 0 l

theorem jsMapIdxGo_length (f : Nat → α → β) (j : Nat) (l : List α) :
    (jsMapIdxGo f j l).length = l.length := by
  induction l generalizing j with
  | nil => rfl
  | cons a as ih => simp [jsMapIdxGo, ih]

theorem jsMapIdxGo_getD (f : Nat → α → β) (dA : α) (dB : β) (j i : Nat) (l : List α)
    (h : i < l.length) :
    (jsMapIdxGo f j l).getD i dB = f (j + i) (l.getD i dA) := by
  induction l generalizing j i with
  | nil => simp at h
  | cons a as ih =>
    cases i with
    | zero => simp [jsMapIdxGo]
    | succ n =>
      have hn : n < as.length := by simpa using h
      have harith : j + 1 + n = j + (n + 1) := by omega
      simp only [jsMapIdxGo, List.getD_cons_succ]
      rw [ih (j + 1) n hn, harith]

theorem jsMapIdxGo_countP_zero (f : Nat → α → β) (p : β → Bool) (t : Nat)
    (hp : ∀ i a, p (f i a) = true → i + 1 = t) (j : Nat) (l : List α) (hj : t ≤ j) :
    (jsMapIdxGo f j l).countP p = 0 := by
  induction l generalizing j with
  | nil => rfl
  | cons a as ih =>
    have h1 : p (f j a) = false := by
      cases h : p (f j a)
      · rfl
      · exact absurd (hp j a h) (by omega)
    simp [jsMapIdxGo, List.countP_cons, h1, ih (j + 1) (by omega)]

theorem jsMapIdxGo_countP_le_one (f : Nat → α → β) (p : β → Bool) (t : Nat)
    (hp : ∀ i a, p (f i a) = true → i + 1 = t) (j : Nat) (l : List α) :
    (jsMapIdxGo f j l).countP p ≤ 1 := by
  induction l generalizing j with
  | nil => simp [jsMapIdxGo]
  | cons a as ih =>
    by_cases h : p (f j a) = true
    · have ht : j + 1 = t := hp j a h
      have h0 : (jsMapIdxGo f (j + 1) as).countP p = 0 :=
        jsMapIdxGo_countP_zero f p t hp (j + 1) as (by omega)
      simp [jsMapIdxGo, List.countP_cons, h, h0]
    · have h' : p (f j a) = false := by simpa using h
      simpa [jsMapIdxGo, List.countP_cons, h'] using ih (j + 1)

/-- JS `a || b` on strings: the empty string is falsy. -/
def jsOr (a b : String) : String :=
  if a = "" then b else a

/-- JS `String.prototype.trim`: drop whitespace from both ends. -/
def jsTrim (s : String) : String :=
  String.mk (((s.data.dropWhile Char.isWhitespace).reverse.dropWhile
    Char.isWhitespace).reverse)

/-- JS `String.prototype.split` with a one-character separator,
on a filename modelled as a character list.  `split` never returns an
empty array: splitting the empty string yields `[""]`. -/
def jsSplit (sep : Char) : List Char → List (List Char)
  | [] => [[]]
  | c :: cs =>
    match jsSplit sep cs with
    | [] => [[]]
    | p :: ps => if c = sep then [] :: p :: ps else (c :: p) :: ps

theorem jsSplit_ne_nil (sep : Char) (l : List Char) : jsSplit sep l ≠ [] := by
  cases l with
  | nil => simp [jsSplit]
  | cons c cs =>
    simp only [jsSplit]
    cases jsSplit sep cs with
    | nil => simp
    | cons p ps =>
      by_cases h : c = sep <;> simp [h]

theorem jsSplit_not_mem (sep : Char) (l : List Char) (h : sep ∉ l) :
    jsSplit sep l = [l] := by
  induction l with
  | nil => rfl
  | cons c cs ih =>
    have hc : c ≠ sep := fun hcs => h (hcs ▸ List.mem_cons_self c cs)
    have hcs : sep ∉ cs := fun hm => h (List.mem_cons_of_mem c hm)
    simp [jsSplit, ih hcs, hc]

/-! ## Data model -/

/-- A document record as returned by `GET /api/documents/list`.
String fields that JavaScript may leave `undefined` are modelled as `""`
(`undefined` and `""` are both falsy, which is all the code observes). -/
structure BackendDoc where
  id : String := ""
  task_id : String := ""
  filename : String := ""
  upload_time : String := ""
  processing_status : String := ""
deriving Repr, DecidableEq, Inhabited

/-- An entry of the `uploadedFiles` React state in `AdminDashboard.jsx`:
the backend record spread together with the derived
`task_id` / `ingested` / `isActive` fields. -/
structure UploadedFile where
  id : String := ""
  task_id : String := ""
  filename : String := ""
  upload_time : String := ""
  processing_status : String := ""
  ingested : Bool := false
  isActive : Bool := false
deriving Repr, DecidableEq, Inhabited

/-- Embeds `arr.filter(f => f.processing_status === 'completed').length` over the
raw backend list, as computed inside `loadUploadedFiles`. -/
def completedCount (arr : List BackendDoc) : Nat :=
  (arr.filter (fun f => f.processing_status == "completed")).length

/-- The element-wise body of the `map` in `loadUploadedFiles`
(`AdminDashboard.jsx` lines 97-102).  JS numbers are modelled as `Int`
so that `arr.filter(...).length - 1` can be `-1` on an all-pending list. -/
def mkUploadedFile (arr : List BackendDoc) (idx : Nat) (f : BackendDoc) : UploadedFile :=
  { id := f.id
    task_id := jsOr f.id (jsOr f.task_id f.filename)
    filename := f.filename
    upload_time := f.upload_time
    processing_status := f.processing_status
    ingested := f.processing_status == "completed"
    isActive := ((idx : Int) == (completedCount arr : Int) - 1) &&
      (f.processing_status == "completed") }

/-- Result of one `loadUploadedFiles` run.  `published = none` means
`onActiveDocumentChange` was not called at all; `published = some x`
means it was called with `x` (`some f` = a file, `none` = JS `null`). -/
structure RefreshResult where
  uploadedFiles : List UploadedFile
  published : Option (Option UploadedFile)
deriving Repr, DecidableEq

/-- Embeds `loadUploadedFiles` (`AdminDashboard.jsx` lines 94-111).  `resp = none`
models the fetch throwing; `resp = some docs` models a response whose
`documents` field is `docs` (a missing field becomes `[]` via `|| []`). -/
def loadUploadedFiles (resp : Option (List BackendDoc)) : RefreshResult :=
  match resp with
  | none => { uploadedFiles := [], published := some none }
  | some docs =>
    let files := jsMapIdx (fun idx f => mkUploadedFile docs idx f) docs
    { uploadedFiles := files
      published :=
        match files.find? (fun f => f.isActive) with
        | some activeFile => some (some activeFile)
        | none => none }

/-- Embeds `handleSetActive` (`AdminDashboard.jsx` lines 217-234), restricted to
its effect on the `uploadedFiles` state.  An out-of-range index or a falsy
`task_id` aborts with an alert; a failed backend call leaves the list
unchanged; on success each entry gets `isActive := (i === activeIdx)`. -/
def handleSetActive (files : List UploadedFile) (activeIdx : Nat) (apiOk : Bool) :
    List UploadedFile :=
  match files[activeIdx]? with
  | none => files
  | some selectedDoc =>
    if selectedDoc.task_id = "" then files
    else if apiOk then
      jsMapIdx (fun i d => { d with isActive := i == activeIdx }) files
    else files

/-- Embeds `handleToggleIngested` (`AdminDashboard.jsx` lines 236-250), restricted
to its effect on the `uploadedFiles` state.  An out-of-range index throws
on `doc.ingested` before any state change; a failed backend call leaves the
list unchanged; on success the target gets
`ingested := newStatus, isActive := newStatus` and every other entry gets
`isActive := false`, where `newStatus = !doc.ingested`. -/
def handleToggleIngested (files : List UploadedFile) (idx : Nat) (apiOk : Bool) :
    List UploadedFile :=
  match files[idx]? with
  | none => files
  | some doc =>
    let newStatus := !doc.ingested
    if apiOk then
      jsMapIdx (fun i d =>
        if i == idx then { d with ingested := newStatus, isActive := newStatus }
        else { d with isActive := false }) files
    else files

/-- Number of entries with `isActive = true`. -/
def countActive (files : List UploadedFile) : Nat :=
  files.countP (fun f => f.isActive)

/-! ## Upload validation (`handleFileUpload`, AdminDashboard.jsx 136-176) -/

/-- One entry of the `uploadProgress` map. -/
structure ProgressEntry where
  progress : Nat := 0
  status : String := ""
deriving Repr, DecidableEq, Inhabited

/-- JS object update `{...prev, [k]: v}`: replace the value when the key
exists, otherwise append the pair. -/
def jsSet (k : List Char) (v : ProgressEntry) :
    List (List Char × ProgressEntry) → List (List Char × ProgressEntry)
  | [] => [(k, v)]
  | (k0, v0) :: rest =>
    if k0 = k then (k, v) :: rest else (k0, v0) :: jsSet k v rest

/-- How a call to `handleFileUpload` ends before any asynchronous work:
rejected on the extension check, rejected on the size check, or accepted
(the network upload is started). -/
inductive UploadAction where
  | rejectedType
  | rejectedSize
  | uploaded
deriving Repr, DecidableEq

structure UploadAttempt where
  action : UploadAction
  uploadProgress : List (List Char × ProgressEntry)
  alerted : Bool
deriving Repr, DecidableEq

/-- Embeds `const allowedTypes = ['.pdf', '.docx', '.txt']`. -/
def allowedTypes : List (List Char) :=
  [".pdf".toList, ".docx".toList, ".txt".toList]

/-- Embeds `'.' + file.name.split('.').pop().toLowerCase()`. -/
def fileExtOf (name : List Char) : List Char :=
  '.' :: ((jsSplit '.' name).getLastD []).map Char.toLower

/-- Embeds `handleFileUpload` (`AdminDashboard.jsx` lines 136-176), up to the
point where the network upload is issued.  The network call happens
exactly when `action = .uploaded`, in which case the progress map has
already been given an `uploading` entry for the file. -/
def handleFileUpload (name : List Char) (size : Nat)
    (progress : List (List Char × ProgressEntry)) : UploadAttempt :=
  let fileExt := fileExtOf name
  if !(allowedTypes.contains fileExt) then
    { action := .rejectedType, uploadProgress := progress, alerted := true }
  else if size > 200 * 1024 * 1024 then
    { action := .rejectedSize, uploadProgress := progress, alerted := true }
  else
    { action := .uploaded
      uploadProgress := jsSet name { progress := 0, status := "uploading" } progress
      alerted := false }

/-! ## Chat data model -/

/-- A chat message.  The ISO timestamp is modelled as a `Nat`. -/
structure Message where
  role : String
  content : String
  timestamp : Nat := 0
  confidence : Option Nat := none
  sourcesUsed : Option Nat := none
  error : Bool := false
deriving Repr, DecidableEq, Inhabited

/-- The greeting text shared by `BOT_GREETING` (`ChatInterface.jsx` 7-11)
and the synthesized first session in `App.jsx` (lines 49-55). -/
def greetingContent : String :=
  "Hello! I\u0027m your document assistant. How can I help you today?"

/-- An assistant greeting message stamped at time `ts`. -/
def botGreeting (ts : Nat) : Message :=
  { role := "assistant", content := greetingContent, timestamp := ts }

/-- One chat session (`{ sessionId, createdAt, messages }`). -/
structure ChatSession where
  sessionId : String
  createdAt : Nat := 0
  messages : List Message := []
deriving Repr, DecidableEq, Inhabited

/-! ## Session bootstrap (`checkSessionAndLoadChats`, App.jsx 29-70) -/

/-- The methods defined on the `ApiService` class in
`services/api-service.js`.  Note the absence of `getChatSessions`, which
`App.jsx` line 38 nevertheless calls. -/
def apiServiceMethods : List String :=
  ["login", "logout", "triggerDemoFileIngest", "uploadDocument",
   "getProcessingStatus", "listDocuments", "setActiveDocument",
   "updateIngestedStatus", "queryDocument", "getChatHistory",
   "clearChatHistory", "getSystemStatus", "getUserProfile", "healthCheck",
   "clearAllChatHistory"]

/-- Final component state produced by the bootstrap effect. -/
structure BootResult where
  user : Option String
  chatSessions : List ChatSession
  activeSessionId : Option String
  storageCleared : Bool
  isLoading : Bool
deriving Repr, DecidableEq

/-- Embeds `checkSessionAndLoadChats` (`App.jsx` lines 29-70).  `sessionsResp`
is the outcome of the session-list call: `.ok sessions` a successful
response (a missing `sessions` field becomes `[]`), `.error ()` any throw
before or during it — including the `TypeError` actually raised because
`ApiService` has no `getChatSessions` method. -/
def checkSessionAndLoadChats (storedUser token : Option String)
    (sessionsResp : Except Unit (List ChatSession)) (now : Nat) : BootResult :=
  match storedUser, token with
  | some u, some _ =>
    match sessionsResp with
    | .ok sessions =>
      if sessions.length > 0 then
        { user := some u
          chatSessions := sessions
          activeSessionId := some ((sessions.headD default).sessionId)
          storageCleared := false
          isLoading := false }
      else
        let newSessionId := "chat_" ++ toString now
        { user := some u
          chatSessions :=
            [{ sessionId := newSessionId, createdAt := now,
               messages := [botGreeting now] }]
          activeSessionId := some newSessionId
          storageCleared := false
          isLoading := false }
    | .error _ =>
      { user := none, chatSessions := [], activeSessionId := none,
        storageCleared := true, isLoading := false }
  | _, _ =>
    { user := none, chatSessions := [], activeSessionId := none,
      storageCleared := false, isLoading := false }

/-! ## Chat history load (`loadChatHistory`, ChatInterface.jsx 51-76) -/

structure HistoryResult where
  messages : List Message
  chatSessions : List ChatSession
deriving Repr, DecidableEq

/-- Embeds `loadChatHistory` (`ChatInterface.jsx` lines 51-76).  `resp = .error ()`
models the fetch throwing; on success an empty history is replaced by the
greeting, and the session cache is updated (replace at the matching
`sessionId`, else append).  `botTs` is the module-load timestamp of
`BOT_GREETING`; `now` stamps a freshly cached session. -/
def loadChatHistory (sessionId : String) (resp : Except Unit (List Message))
    (sessions : List ChatSession) (botTs now : Nat) : HistoryResult :=
  match resp with
  | .error _ => { messages := [botGreeting botTs], chatSessions := sessions }
  | .ok history =>
    let loaded := if history.length = 0 then [botGreeting botTs] else history
    match sessions.findIdx? (fun s => s.sessionId == sessionId) with
    | some i =>
      let createdAt := (sessions.getD i default).createdAt
      { messages := loaded
        chatSessions := sessions.set i
          { sessionId := sessionId, createdAt := createdAt, messages := loaded } }
    | none =>
      { messages := loaded
        chatSessions := sessions ++
          [{ sessionId := sessionId, createdAt := now, messages := loaded }] }

/-! ## Sending a message (`handleSendMessage`, ChatInterface.jsx 92-153) -/

/-- A successful `POST /api/chat/query` response. -/
structure QueryResponse where
  answer : String
  confidence : Option Nat := none
  sources_used : Option Nat := none
deriving Repr, DecidableEq

structure SendResult where
  messages : List Message
  inputMessage : String
  networkCalled : Bool
  alerted : Bool
deriving Repr, DecidableEq

/-- Embeds `handleSendMessage` (`ChatInterface.jsx` lines 92-153), restricted to
the message list, the input field, whether `queryDocument` was reached and
whether `alert` fired.  `resp = none` models the query throwing. -/
def handleSendMessage (overrideMessage : Option String) (inputMessage : String)
    (loading : Bool) (hasDocument : Bool) (activeDocument : Option UploadedFile)
    (messages : List Message) (resp : Option QueryResponse) (now : Nat) :
    SendResult :=
  let messageToSend := overrideMessage.getD inputMessage
  if jsTrim messageToSend = "" || loading then
    { messages := messages, inputMessage := inputMessage,
      networkCalled := false, alerted := false }
  else if !hasDocument || activeDocument.isNone then
    { messages := messages, inputMessage := inputMessage,
      networkCalled := false, alerted := true }
  else
    let userMessage : Message :=
      { role := "user", content := messageToSend, timestamp := now }
    match resp with
    | some r =>
      { messages := messages ++ [userMessage,
          { role := "assistant", content := r.answer, timestamp := now,
            confidence := r.confidence, sourcesUsed := r.sources_used }]
        inputMessage := ""
        networkCalled := true
        alerted := false }
    | none =>
      { messages := messages ++ [userMessage,
          { role := "assistant"
            content := "Sorry, I encountered an error processing your question. Please try again."
            timestamp := now
            error := true }]
        inputMessage := ""
        networkCalled := true
        alerted := false }

/-! ## Clear all chats (`handleClearAllChats`, ChatInterface.jsx 171-182) -/

structure ClearResult where
  chatSessions : List ChatSession
  activeSessionId : Option String
  messages : List Message
  alerted : Bool
deriving Repr, DecidableEq

/-- Embeds `handleClearAllChats` (`ChatInterface.jsx` lines 171-182).  The three
`set` calls run only after `clearAllChatHistory()` resolves; on a throw the
catch block only alerts. -/
def handleClearAllChats (confirmed apiOk : Bool) (sessions : List ChatSession)
    (activeId : Option String) (messages : List Message) : ClearResult :=
  if !confirmed then
    { chatSessions := sessions, activeSessionId := activeId,
      messages := messages, alerted := false }
  else if apiOk then
    { chatSessions := [], activeSessionId := none, messages := [],
      alerted := false }
  else
    { chatSessions := sessions, activeSessionId := activeId,
      messages := messages, alerted := true }

/-! ## Demo ingestion polling (`startDemoIngestion`, AdminDashboard.jsx 53-91) -/

/-- The hard-coded demo documents (filename, task id). -/
def DEMO_FILES : List (String × String) :=
  [("sample w graph.pdf", "demo_graph"), ("sampledata.pdf", "demo_data")]

structure DemoIngestState where
  status : Option String := none
  messages : List String := []
deriving Repr, DecidableEq

/-- Admin-dashboard state relevant to the demo flow:
the transient banner state, the persisted `localStorage` value under
`demoFilesIngested`, and the `demoIngested` React flag. -/
structure DemoState where
  demoIngestState : DemoIngestState
  demoFilesIngestedStorage : Option String
  demoIngested : Bool
deriving Repr, DecidableEq

structure DemoPollResult where
  state : DemoState
  refreshCalled : Bool
  rescheduled : Bool
deriving Repr, DecidableEq

/-- One tick of `pollStatuses` (`AdminDashboard.jsx` lines 64-82).
`statuses` are the `status` fields returned for the demo task ids, in
`DEMO_FILES` order.  When all report `completed` the banner is set to
`done` and `loadUploadedFiles()` is awaited; otherwise the next tick is
scheduled after 2000 ms. -/
def demoPollStep (statuses : List String) (st : DemoState) : DemoPollResult :=
  if statuses.all (fun s => s == "completed") then
    { state :=
        { st with demoIngestState :=
            { status := some "done"
              messages := ["✅ All demo documents processed successfully!"] } }
      refreshCalled := true
      rescheduled := false }
  else
    { state := st, refreshCalled := false, rescheduled := true }

/-! ## Claim theorems -/

/-- Helper: `isActive` of a mapped file forces its index. -/
theorem mkUploadedFile_isActive_index (arr : List BackendDoc) (i : Nat) (f : BackendDoc)
    (h : (mkUploadedFile arr i f).isActive = true) : i + 1 = completedCount arr := by
  simp only [mkUploadedFile, Bool.and_eq_true, beq_iff_eq] at h
  omega

/-- C1 counterexample: on the list `[completed, processing, completed]`
the refresh marks no document active at all — in particular the last
completed document (index 2, filename "c") does not get `isActive = true`
— and nothing is published to the active-document consumer. -/
theorem refresh_last_completed_not_active :
    ((loadUploadedFiles (some [{ filename := "a", processing_status := "completed" },
        { filename := "b", processing_status := "processing" },
        { filename := "c", processing_status := "completed" }])).uploadedFiles.getD 2
          default).isActive = false
    ∧ ((loadUploadedFiles (some [{ filename := "a", processing_status := "completed" },
        { filename := "b", processing_status := "processing" },
        { filename := "c", processing_status := "completed" }])).uploadedFiles.all
          (fun f => !f.isActive)) = true
    ∧ (loadUploadedFiles (some [{ filename := "a", processing_status := "completed" },
        { filename := "b", processing_status := "processing" },
        { filename := "c", processing_status := "completed" }])).published = none := by
  refine ⟨by decide, by decide, by decide⟩

/-- C1 (amended): after a successful refresh, the document at index `i`
has `isActive = true` exactly when `i + 1` equals the number of completed
documents and the document at `i` is itself completed — a positional rule
that names the last completed document only when the completed documents
form a prefix of the list.  Publication: when an active document exists it
(the one `find?` locates) is published to the active-document consumer;
when no document qualifies, no notification happens at all; on success the
consumer is never notified with `null` — `null` is published only on fetch
failure. -/
theorem refresh_active_positional (docs : List BackendDoc) (i : Nat)
    (h : i < docs.length) :
    (((loadUploadedFiles (some docs)).uploadedFiles.getD i default).isActive = true ↔
      (i + 1 = completedCount docs ∧
        (docs.getD i default).processing_status = "completed"))
    ∧ (∀ f, (loadUploadedFiles (some docs)).uploadedFiles.find?
          (fun f => f.isActive) = some f →
        (loadUploadedFiles (some docs)).published = some (some f))
    ∧ ((loadUploadedFiles (some docs)).uploadedFiles.all
          (fun f => !f.isActive) = true →
        (loadUploadedFiles (some docs)).published = none)
    ∧ (loadUploadedFiles (some docs)).published ≠ some none
    ∧ (loadUploadedFiles none).published = some none := by
  refine ⟨?_, ?_, ?_, ?_, rfl⟩
  · have hget := jsMapIdxGo_getD (fun idx f => mkUploadedFile docs idx f)
      default default 0 i docs h
    simp only [loadUploadedFiles, jsMapIdx]
    rw [hget]
    simp only [Nat.zero_add, mkUploadedFile, Bool.and_eq_true, beq_iff_eq]
    constructor
    · rintro ⟨h1, h2⟩
      exact ⟨by omega, h2⟩
    · rintro ⟨h1, h2⟩
      exact ⟨by omega, h2⟩
  · intro f hf
    simp only [loadUploadedFiles, jsMapIdx] at hf ⊢
    rw [hf]
  · intro hall
    simp only [loadUploadedFiles, jsMapIdx] at hall ⊢
    have hall' : ∀ x ∈ jsMapIdxGo (fun idx f => mkUploadedFile docs idx f) 0 docs,
        ¬ (x.isActive = true) := by
      intro x hx
      have hx' := List.all_eq_true.mp hall x hx
      simp only [Bool.not_eq_true'] at hx'
      simp [hx']
    rw [List.find?_eq_none.mpr hall']
  · simp only [loadUploadedFiles]
    cases hf : (jsMapIdx (fun idx f => mkUploadedFile docs idx f) docs).find?
        (fun f => f.isActive) <;> simp [hf]

/-- C1 witness: the amended characterization evaluated on a one-element
completed list, where index 0 is active and that mapped file is exactly
the one published to the active-document consumer. -/
theorem refresh_active_positional_witness :
    ((((loadUploadedFiles (some [{ filename := "a", processing_status := "completed" }])).uploadedFiles.getD
          0 default).isActive = true ↔
      (0 + 1 = completedCount [{ filename := "a", processing_status := "completed" }] ∧
        (([{ filename := "a", processing_status := "completed" }] :
            List BackendDoc).getD 0 default).processing_status = "completed"))
    ∧ (∀ f, (loadUploadedFiles
          (some [{ filename := "a", processing_status := "completed" }])).uploadedFiles.find?
            (fun f => f.isActive) = some f →
        (loadUploadedFiles
          (some [{ filename := "a", processing_status := "completed" }])).published =
            some (some f))
    ∧ ((loadUploadedFiles
          (some [{ filename := "a", processing_status := "completed" }])).uploadedFiles.all
            (fun f => !f.isActive) = true →
        (loadUploadedFiles
          (some [{ filename := "a", processing_status := "completed" }])).published = none)
    ∧ (loadUploadedFiles
          (some [{ filename := "a", processing_status := "completed" }])).published ≠
        some none
    ∧ (loadUploadedFiles none).published = some none)
    ∧ (0 : Nat) < ([{ filename := "a", processing_status := "completed" }] :
        List BackendDoc).length
    ∧ (loadUploadedFiles
          (some [{ filename := "a", processing_status := "completed" }])).published =
        some (some (mkUploadedFile [{ filename := "a", processing_status := "completed" }] 0
          { filename := "a", processing_status := "completed" })) :=
  ⟨refresh_active_positional [{ filename := "a", processing_status := "completed" }] 0
      (by decide),
    by decide,
    (refresh_active_positional [{ filename := "a", processing_status := "completed" }] 0
        (by decide)).2.1
      (mkUploadedFile [{ filename := "a", processing_status := "completed" }] 0
        { filename := "a", processing_status := "completed" })
      (by decide)⟩

/-- C2: every registry operation yields a document collection with at
most one `isActive = true` entry.  `loadUploadedFiles` guarantees it
unconditionally; `handleSetActive` and `handleToggleIngested` rewrite
every entry's `isActive` on success and leave the list untouched on
failure, so they preserve the invariant from any list already
satisfying it (all reachable registry states do, starting from `[]`). -/
theorem registry_at_most_one_active (resp : Option (List BackendDoc))
    (files : List UploadedFile) (idx : Nat) (ok : Bool)
    (hinv : countActive files ≤ 1) :
    countActive (loadUploadedFiles resp).uploadedFiles ≤ 1
    ∧ countActive (handleSetActive files idx ok) ≤ 1
    ∧ countActive (handleToggleIngested files idx ok) ≤ 1 := by
  refine ⟨?_, ?_, ?_⟩
  · cases resp with
    | none => simp [loadUploadedFiles, countActive]
    | some docs =>
      simp only [loadUploadedFiles, countActive, jsMapIdx]
      exact jsMapIdxGo_countP_le_one _ _ (completedCount docs)
        (fun i a h => mkUploadedFile_isActive_index docs i a h) 0 docs
  · unfold handleSetActive
    cases files[idx]? with
    | none => exact hinv
    | some selectedDoc =>
      by_cases hid : selectedDoc.task_id = ""
      · simpa [hid] using hinv
      · cases ok with
        | false => simpa [hid] using hinv
        | true =>
          simp only [hid, if_false, if_true, countActive, jsMapIdx]
          exact jsMapIdxGo_countP_le_one _ _ (idx + 1)
            (fun i d h => by
              simp only [beq_iff_eq] at h
              omega) 0 files
  · unfold handleToggleIngested
    cases files[idx]? with
    | none => exact hinv
    | some doc =>
      cases ok with
      | false => simpa using hinv
      | true =>
        simp only [if_true, countActive, jsMapIdx]
        refine jsMapIdxGo_countP_le_one _ _ (idx + 1) (fun i d h => ?_) 0 files
        by_cases hi : i == idx
        · simp only [beq_iff_eq] at hi
          omega
        · simp only [hi] at h
          simp at h

/-- C2 witness: the invariant evaluated on the empty registry with a
failed fetch and index 0. -/
theorem registry_at_most_one_active_witness :
    (countActive (loadUploadedFiles none).uploadedFiles ≤ 1
      ∧ countActive (handleSetActive [] 0 true) ≤ 1
      ∧ countActive (handleToggleIngested [] 0 true) ≤ 1)
    ∧ countActive [] ≤ 1 :=
  ⟨registry_at_most_one_active none [] 0 true (by decide), by decide⟩

/-- C3 (code bug): `App.jsx` line 38 calls `apiService.getChatSessions()`
but the `ApiService` class defines no such method, so the call throws a
`TypeError` before any network request and the bootstrap always lands in
its catch block: persisted storage is cleared and the user is logged out.
The adopt-verbatim / synthesize-greeting branches the claim describes are
dead code on every start with a persisted identity and token. -/
theorem bootstrap_getChatSessions_missing :
    "getChatSessions" ∉ apiServiceMethods
    ∧ checkSessionAndLoadChats (some "admin") (some "token") (.error ()) 0 =
      { user := none, chatSessions := [], activeSessionId := none,
        storageCleared := true, isLoading := false } :=
  ⟨by decide, rfl⟩

/-- C4 counterexample: toggling a document whose `ingested` flag is `true`
flips it to `false` and sets the target's `isActive` to `false` as well —
not to `true` as the claim states. -/
theorem toggle_ingested_true_to_false_clears_active :
    ((handleToggleIngested
        [{ filename := "b", task_id := "b", ingested := true }] 0 true).getD
          0 default).isActive = false
    ∧ ((handleToggleIngested
        [{ filename := "b", task_id := "b", ingested := true }] 0 true).getD
          0 default).ingested = false
    ∧ ({ filename := "b", task_id := "b", ingested := true } :
        UploadedFile).ingested = true := by
  refine ⟨by decide, by decide, by decide⟩

/-- C4 (amended): a successful `toggleIngested(idx)` flips the target's
`ingested` flag and sets the target's `isActive` to the *new* `ingested`
value (`true` when flipping false→true, `false` when flipping true→false),
while clearing `isActive` on every other entry. -/
theorem toggle_ingested_sets_active_to_new_flag (files : List UploadedFile)
    (idx : Nat) (h : idx < files.length) :
    ((handleToggleIngested files idx true).getD idx default).ingested
        = !((files.getD idx default).ingested)
    ∧ ((handleToggleIngested files idx true).getD idx default).isActive
        = !((files.getD idx default).ingested)
    ∧ ∀ j, j < files.length → j ≠ idx →
        ((handleToggleIngested files idx true).getD j default).isActive = false := by
  have hsome : files[idx]? = some (files.getD idx default) := by
    rw [List.getElem?_eq_getElem h, List.getD_eq_getElem?_getD,
      List.getElem?_eq_getElem h]
    rfl
  simp only [handleToggleIngested, hsome, if_true]
  refine ⟨?_, ?_, ?_⟩
  · rw [jsMapIdx, jsMapIdxGo_getD _ default default 0 idx files h]
    simp
  · rw [jsMapIdx, jsMapIdxGo_getD _ default default 0 idx files h]
    simp
  · intro j hj hne
    rw [jsMapIdx, jsMapIdxGo_getD _ default default 0 j files hj]
    have hb : (j == idx) = false := by simpa using hne
    simp [hb]

/-- C4 witness: the amended behavior evaluated on a two-element list with
a non-ingested target at index 0: it becomes ingested and active, the
other entry becomes inactive. -/
theorem toggle_ingested_sets_active_to_new_flag_witness :
    (((handleToggleIngested
        [{ filename := "a" }, { filename := "b", isActive := true }] 0 true).getD
          0 default).ingested
        = !((([{ filename := "a" }, { filename := "b", isActive := true }] :
            List UploadedFile).getD 0 default).ingested)
    ∧ ((handleToggleIngested
        [{ filename := "a" }, { filename := "b", isActive := true }] 0 true).getD
          0 default).isActive
        = !((([{ filename := "a" }, { filename := "b", isActive := true }] :
            List UploadedFile).getD 0 default).ingested)
    ∧ ∀ j, j < ([{ filename := "a" }, { filename := "b", isActive := true }] :
          List UploadedFile).length → j ≠ 0 →
        ((handleToggleIngested
            [{ filename := "a" }, { filename := "b", isActive := true }] 0 true).getD
          j default).isActive = false)
    ∧ (0 : Nat) < ([{ filename := "a" }, { filename := "b", isActive := true }] :
        List UploadedFile).length :=
  ⟨toggle_ingested_sets_active_to_new_flag
      [{ filename := "a" }, { filename := "b", isActive := true }] 0 (by decide),
    by decide⟩

/-- C5: once the user has confirmed, a failed backend clear-all leaves the
session list, the active-session pointer and the message list exactly
unchanged and alerts the user; local state is cleared only when the
backend call succeeds. -/
theorem clear_all_failure_preserves_state (sessions : List ChatSession)
    (activeId : Option String) (messages : List Message) :
    handleClearAllChats true false sessions activeId messages =
      { chatSessions := sessions, activeSessionId := activeId,
        messages := messages, alerted := true }
    ∧ handleClearAllChats true true sessions activeId messages =
      { chatSessions := [], activeSessionId := none, messages := [],
        alerted := false } :=
  ⟨rfl, rfl⟩

/-- C6 counterexample: a file of exactly 200 MiB (209715200 bytes) with a
valid extension passes the strict `size > 200 * 1024 * 1024` check: the
upload proceeds, the progress map gains an entry and no alert fires —
whereas the claim requires every file of at least 200 MiB to be rejected
before any network call. -/
theorem upload_at_exactly_200mib_not_rejected :
    (handleFileUpload ("a.pdf".toList) (200 * 1024 * 1024) []).action = .uploaded
    ∧ (handleFileUpload ("a.pdf".toList) (200 * 1024 * 1024) []).uploadProgress ≠ []
    ∧ (handleFileUpload ("a.pdf".toList) (200 * 1024 * 1024) []).alerted = false := by
  refine ⟨by decide, by decide, by decide⟩

/-- C6 (amended): every file strictly larger than 200 MiB
(> 200 × 1024 × 1024 bytes) is rejected before any network call, with a
user-visible alert and an unchanged upload-progress map; a file of
exactly 200 MiB passes the size check. -/
theorem oversize_upload_rejected (name : List Char) (size : Nat)
    (progress : List (List Char × ProgressEntry)) (h : 200 * 1024 * 1024 < size) :
    (handleFileUpload name size progress).action ≠ UploadAction.uploaded
    ∧ (handleFileUpload name size progress).uploadProgress = progress
    ∧ (handleFileUpload name size progress).alerted = true := by
  have h' : 209715200 < size := by omega
  unfold handleFileUpload
  by_cases he : fileExtOf name ∈ allowedTypes <;> simp [he, h']

/-- C6 witness: a 200 MiB + 1 byte PDF is rejected with the map unchanged. -/
theorem oversize_upload_rejected_witness :
    ((handleFileUpload ("a.pdf".toList) (200 * 1024 * 1024 + 1) []).action ≠
        UploadAction.uploaded
    ∧ (handleFileUpload ("a.pdf".toList) (200 * 1024 * 1024 + 1) []).uploadProgress = []
    ∧ (handleFileUpload ("a.pdf".toList) (200 * 1024 * 1024 + 1) []).alerted = true)
    ∧ 200 * 1024 * 1024 < 200 * 1024 * 1024 + 1 :=
  ⟨oversize_upload_rejected ("a.pdf".toList) (200 * 1024 * 1024 + 1) [] (by decide),
    by decide⟩

/-- C9 counterexample: the dotless filename "PDF" is *not* rejected — its
whole name is lowercased before the extension comparison, so the upload
proceeds — contradicting the claim that every dotless filename other than
exactly "pdf", "docx" or "txt" is rejected. -/
theorem dotless_uppercase_pdf_uploaded :
    (handleFileUpload ("PDF".toList) 10 []).action = UploadAction.uploaded
    ∧ ('.' ∉ "PDF".toList)
    ∧ "PDF".toList ≠ "pdf".toList
    ∧ "PDF".toList ≠ "docx".toList
    ∧ "PDF".toList ≠ "txt".toList := by
  refine ⟨by decide, by decide, by decide, by decide, by decide⟩

/-- C9 (amended): for a dotless filename the derived extension is `'.'`
prepended to the whole name lowercased, so the file passes the extension
check exactly when its lowercased name is "pdf", "docx" or "txt" (and is
then uploaded whenever its size is within the 200 MiB limit); every other
dotless filename is rejected by the extension check. -/
theorem dotless_filename_extension_rule (name : List Char) (size : Nat)
    (progress : List (List Char × ProgressEntry)) (h : '.' ∉ name) :
    ((handleFileUpload name size progress).action ≠ UploadAction.rejectedType ↔
      name.map Char.toLower ∈ ["pdf".toList, "docx".toList, "txt".toList])
    ∧ (name.map Char.toLower ∈ ["pdf".toList, "docx".toList, "txt".toList] →
        size ≤ 200 * 1024 * 1024 →
        (handleFileUpload name size progress).action = UploadAction.uploaded) := by
  have hext : fileExtOf name = '.' :: name.map Char.toLower := by
    simp [fileExtOf, jsSplit_not_mem '.' name h]
  have e1 : ".pdf".toList = '.' :: "pdf".toList := rfl
  have e2 : ".docx".toList = '.' :: "docx".toList := rfl
  have e3 : ".txt".toList = '.' :: "txt".toList := rfl
  have hiff : fileExtOf name ∈ allowedTypes ↔
      name.map Char.toLower ∈ ["pdf".toList, "docx".toList, "txt".toList] := by
    rw [hext]
    simp [allowedTypes, e1, e2, e3]
  constructor
  · by_cases hc : fileExtOf name ∈ allowedTypes
    · constructor
      · intro _
        exact hiff.mp hc
      · intro _
        unfold handleFileUpload
        by_cases hs : 209715200 < size <;> simp [hc, hs]
    · constructor
      · intro hne
        exfalso
        apply hne
        unfold handleFileUpload
        simp [hc]
      · intro hm
        exact absurd (hiff.mpr hm) hc
  · intro hm hsize
    have hc : fileExtOf name ∈ allowedTypes := hiff.mpr hm
    have hs : ¬ (209715200 < size) := by omega
    unfold handleFileUpload
    simp [hc, hs]

/-- C9 witness: the rule evaluated on the dotless name "pdf" with a small
size — the extension check passes and the upload proceeds. -/
theorem dotless_filename_extension_rule_witness :
    (((handleFileUpload ("pdf".toList) 10 []).action ≠ UploadAction.rejectedType ↔
      ("pdf".toList).map Char.toLower ∈ ["pdf".toList, "docx".toList, "txt".toList])
    ∧ (("pdf".toList).map Char.toLower ∈ ["pdf".toList, "docx".toList, "txt".toList] →
        10 ≤ 200 * 1024 * 1024 →
        (handleFileUpload ("pdf".toList) 10 []).action = UploadAction.uploaded))
    ∧ '.' ∉ "pdf".toList :=
  ⟨dotless_filename_extension_rule ("pdf".toList) 10 [] (by decide), by decide⟩

/-- C7 counterexample: an invocation with non-blank input, no active
document, and a send already in flight (`loading = true`) issues no
network call and does *not* alert — the blank/in-flight guard returns
silently before the no-document alert is reached, contradicting the
claim that every no-active-document invocation alerts the user. -/
theorem send_no_document_silent_when_loading :
    (handleSendMessage none "hi" true false none [] none 0).alerted = false
    ∧ (handleSendMessage none "hi" true false none [] none 0).networkCalled = false
    ∧ (handleSendMessage none "hi" true false none [] none 0).messages = [] := by
  refine ⟨by decide, by decide, by decide⟩

/-- C7 (amended): blank or whitespace-only input never issues a network
call and never mutates the message list; an invocation with no active
document likewise issues no network call and leaves the message list
unchanged, and it alerts exactly when the input is non-blank and no send
is already in flight (otherwise the first guard returns silently). -/
theorem send_message_guards (ov : Option String) (inp : String)
    (loading hasDoc : Bool) (doc : Option UploadedFile) (messages : List Message)
    (resp : Option QueryResponse) (now : Nat) :
    (jsTrim (ov.getD inp) = "" →
      (handleSendMessage ov inp loading hasDoc doc messages resp now).networkCalled = false
      ∧ (handleSendMessage ov inp loading hasDoc doc messages resp now).messages = messages)
    ∧ (doc = none →
      (handleSendMessage ov inp loading hasDoc doc messages resp now).networkCalled = false
      ∧ (handleSendMessage ov inp loading hasDoc doc messages resp now).messages = messages
      ∧ ((handleSendMessage ov inp loading hasDoc doc messages resp now).alerted = true ↔
          (jsTrim (ov.getD inp) ≠ "" ∧ loading = false))) := by
  constructor
  · intro ht
    unfold handleSendMessage
    simp [ht]
  · intro hd
    subst hd
    unfold handleSendMessage
    by_cases ht : jsTrim (ov.getD inp) = ""
    · simp [ht]
    · cases loading with
      | true => simp [ht]
      | false => simp [ht]

/-- C7 witness: whitespace-only input is a silent no-op even with a
document selected; non-blank input with no document and no send in
flight is a no-op that alerts. -/
theorem send_message_guards_witness :
    (((handleSendMessage none "   " false true (some default) [] none 0).networkCalled = false
      ∧ (handleSendMessage none "   " false true (some default) [] none 0).messages = [])
    ∧ ((handleSendMessage none "hello" false false none [] none 0).networkCalled = false
      ∧ (handleSendMessage none "hello" false false none [] none 0).messages = []
      ∧ ((handleSendMessage none "hello" false false none [] none 0).alerted = true ↔
          (jsTrim ((none : Option String).getD "hello") ≠ "" ∧ false = false))))
    ∧ jsTrim ((none : Option String).getD "   ") = "" :=
  ⟨⟨(send_message_guards none "   " false true (some default) [] none 0).1 (by decide),
    (send_message_guards none "hello" false false none [] none 0).2 rfl⟩,
    by decide⟩

/-- C8 (code bug): when every demo document's poll reports `completed`,
the poll step sets the transient banner to `done` and refreshes the real
document list, but neither the persisted `demoFilesIngested` storage key
nor the `demoIngested` flag is written — nothing in the repository ever
sets them — so demo ingestion is re-triggered in later sessions, contrary
to the claim that the done flag is set and persisted. -/
theorem demo_ingestion_done_not_persisted :
    (demoPollStep ["completed", "completed"]
        { demoIngestState := { status := some "processing" },
          demoFilesIngestedStorage := none, demoIngested := false }).refreshCalled = true
    ∧ (demoPollStep ["completed", "completed"]
        { demoIngestState := { status := some "processing" },
          demoFilesIngestedStorage := none,
          demoIngested := false }).state.demoFilesIngestedStorage = none
    ∧ (demoPollStep ["completed", "completed"]
        { demoIngestState := { status := some "processing" },
          demoFilesIngestedStorage := none,
          demoIngested := false }).state.demoIngested = false
    ∧ (demoPollStep ["completed", "completed"]
        { demoIngestState := { status := some "processing" },
          demoFilesIngestedStorage := none,
          demoIngested := false }).state.demoIngestState.status = some "done" := by
  refine ⟨by decide, by decide, by decide, by decide⟩

/-- C10: when fetching a session's chat history fails, the displayed
message list becomes exactly the single standard greeting and the session
collection is returned unchanged — no cache insert or replace happens. -/
theorem history_failure_greeting_only (sessionId : String)
    (sessions : List ChatSession) (botTs now : Nat) :
    loadChatHistory sessionId (.error ()) sessions botTs now =
      { messages := [botGreeting botTs], chatSessions := sessions } :=
  rfl

end DocQA
